import Mathlib

/-!
Verification of the `wasm-pkg` repository's configuration, manifest and CLI
logic, shallowly embedded in Lean 4.

Sources embedded:
  * `crates/wasm-pkg-deps/src/config.rs` — `RegistryConfig`, `Config`,
    `Auth`, their `Default` impls, and `RegistryConfig::get_client`;
  * `crates/wasm-pkg-deps/src/manifest.rs` — `ManifestEntry`,
    `DependencyConfig`;
  * `src/main.rs` — the CLI `Auth` pair, `TryFrom<Auth> for RegistryAuth`,
    `handle_pull` and `handle_deps_update`.

Rust `Option<T>` becomes `Option T`, `String` becomes `String`,
`BTreeMap<String, V>` becomes an association list `List (String × V)`
(key-ordering is never load-bearing in the claims), byte buffers become
`List Nat`, and fallible code returns `Except String _`.  Network and file
I/O are externalized: `handle_pull` receives the registry's answer as an
`Except` argument and returns the list of file writes it performs.
-/

namespace WasmPkg

/-- `oci_distribution::client::ClientProtocol` (the constructors used by this
repository). -/
inductive ClientProtocol where
  | Http : ClientProtocol
  | Https : ClientProtocol
  | HttpsExcept : List String → ClientProtocol
deriving DecidableEq, Repr

/-- `oci_distribution::secrets::RegistryAuth` (the constructors used by this
repository). -/
inductive RegistryAuth where
  | Basic : String → String → RegistryAuth
  | Anonymous : RegistryAuth
deriving DecidableEq, Repr

/-- `Auth` from `config.rs`: username/password pair stored in a
`RegistryConfig`.  Both fields are mandatory strings. -/
structure ConfigAuth where
  username : String
  password : String
deriving DecidableEq, Repr

/-- `RegistryConfig` from `config.rs`. -/
structure RegistryConfig where
  registry : String
  protocol : Option String
  registry_subpath : Option String
  auth : Option ConfigAuth
deriving DecidableEq, Repr

/-- `DEFAULT_REGISTRY` from `config.rs`. -/
def DEFAULT_REGISTRY : String := "ghcr.io"

/-- `DEFAULT_REGISTRY_SUBPATH` from `config.rs`. -/
def DEFAULT_REGISTRY_SUBPATH : String := "WebAssembly"

/-- `impl Default for RegistryConfig` from `config.rs`. -/
def RegistryConfig.default : RegistryConfig :=
  { registry := DEFAULT_REGISTRY
    registry_subpath := some DEFAULT_REGISTRY_SUBPATH
    protocol := none
    auth := none }

/-- `RegistryConfig::get_client` from `config.rs`, with the external
`Client::new` call abstracted to the `ClientProtocol` it is handed: the
function's observable output is the chosen transport protocol and the
chosen credential mode. -/
def RegistryConfig.get_client (c : RegistryConfig) : ClientProtocol × RegistryAuth :=
  let protocol : ClientProtocol :=
    match c.protocol with
    | some "http" => ClientProtocol.Http
    | some "https" => ClientProtocol.Https
    | some _ => ClientProtocol.Https
    | none => ClientProtocol.Https
  let auth : RegistryAuth :=
    match c.auth with
    | some a => RegistryAuth.Basic a.username a.password
    | none => RegistryAuth.Anonymous
  (protocol, auth)

/-- `Config` from `config.rs`.  The `namespaces` `BTreeMap` is embedded as an
association list. -/
structure Config where
  default_namespace : String
  default_config : RegistryConfig
  namespaces : List (String × RegistryConfig)
deriving DecidableEq, Repr

/-- `impl Default for Config` from `config.rs`. -/
def Config.default : Config :=
  { default_namespace := "wasi"
    default_config := RegistryConfig.default
    namespaces := [] }

/-- Modelled from the spec: the repository declares the `Config` routing
table but contains no lookup function for it; §4.2 of the spec specifies
the missing operation as `resolve(namespace) -> RegistryConfig` — "look up
`namespace` in the table; if absent, return `defaultConfig`". -/
def Config.resolve (c : Config) (ns : String) : RegistryConfig :=
  match c.namespaces.lookup ns with
  | some rc => rc
  | none => c.default_config

/-- `Auth` from `main.rs`: the CLI `-u`/`-p` pair, each falling back to the
`WASM_PKG_USERNAME` / `WASM_PKG_PASSWORD` environment variable; either
source yields the same optional-string pair. -/
structure CliAuth where
  username : Option String
  password : Option String
deriving DecidableEq, Repr

/-- `impl TryFrom<Auth> for RegistryAuth` from `main.rs`. -/
def tryFromAuth (auth : CliAuth) : Except String RegistryAuth :=
  match auth.username, auth.password with
  | some username, some password => Except.ok (RegistryAuth.Basic username password)
  | none, none => Except.ok RegistryAuth.Anonymous
  | _, _ => Except.error "Must provide both a username and password"

/-- One layer of a pulled OCI artifact (`oci_wasm` image data layer): the
byte buffer it carries. -/
structure Layer where
  data : List Nat
deriving DecidableEq, Repr

/-- The data returned by a successful `client.pull` (`oci_wasm`): the list
of layers. -/
structure ImageData where
  layers : List Layer
deriving DecidableEq, Repr

/-- `PullArgs` from `main.rs`.  The external `Reference` type is represented
by the one observation `handle_pull` makes of it, its `repository()`
string; paths are strings. -/
structure PullArgs where
  auth : CliAuth
  repository : String
  output : Option String
deriving DecidableEq, Repr

/-- `DepsUpdateArgs` from `main.rs`. -/
structure DepsUpdateArgs where
  config : Option String
  cache_dir : Option String
deriving DecidableEq, Repr

/-- An observable side effect of a CLI handler: a file write of the given
bytes to the given path, or a network call. -/
inductive Effect where
  | fsWrite : String → List Nat → Effect
  | netCall : String → Effect
deriving DecidableEq, Repr

/-- Rust `str::replace('/', "_")` for the single-character pattern used in
`main.rs`: every `/` becomes `_`. -/
def replaceSlashes (s : String) : String :=
  String.mk (s.data.map fun ch => if ch = '/' then '_' else ch)

/-- `handle_pull` from `main.rs`.  The network interaction is externalized:
the registry's answer to `client.pull` arrives as the `pullResult`
argument (consulted only after the auth conversion succeeds, as in the
source).  The result is the handler's `anyhow::Result` together with the
list of file writes it performed. -/
def handle_pull (args : PullArgs) (pullResult : Except String ImageData) :
    Except String Unit × List Effect :=
  match tryFromAuth args.auth with
  | Except.error e => (Except.error e, [])
  | Except.ok _ =>
    match pullResult with
    | Except.error e => (Except.error ("Unable to pull image: " ++ e), [])
    | Except.ok data =>
      let output_path : String :=
        match args.output with
        | some output_file => output_file
        | none => replaceSlashes args.repository ++ ".wasm"
      match data.layers with
      | [] => (Except.error "No layers found", [])
      | l :: _ => (Except.ok (), [Effect.fsWrite output_path l.data])

/-- `handle_deps_update` from `main.rs`: it ignores its arguments and
returns `Ok(())` with no effect. -/
def handle_deps_update (_ : DepsUpdateArgs) : Except String Unit × List Effect :=
  (Except.ok (), [])

/-- A TOML-like document value: the file representation the configuration
structs serialize to.  Only strings and tables occur in these shapes. -/
inductive Toml where
  | str : String → Toml
  | table : List (String × Toml) → Toml

/-- Modelled from the spec: the serializer for `Auth` generated by the
external serde library from the `#[derive(Serialize)]` +
`#[serde(rename_all = "camelCase")]` attributes in `config.rs`; the
generated code itself is not part of this repository. -/
def serializeAuth (a : ConfigAuth) : Toml :=
  Toml.table [("username", Toml.str a.username), ("password", Toml.str a.password)]

/-- Modelled from the spec: the deserializer for `Auth` generated by serde;
both fields are mandatory strings. -/
def deserializeAuth (v : Toml) : Except String ConfigAuth :=
  match v with
  | Toml.table fields =>
    match fields.lookup "username", fields.lookup "password" with
    | some (Toml.str u), some (Toml.str p) => Except.ok ⟨u, p⟩
    | _, _ => Except.error "invalid auth"
  | _ => Except.error "invalid auth"

/-- The fields an `Option` contributes to a serialized table: absent fields
are omitted (as the TOML serializer does for `None`). -/
def optField (key : String) (v : Option Toml) : List (String × Toml) :=
  match v with
  | none => []
  | some t => [(key, t)]

/-- Modelled from the spec: the serializer for `RegistryConfig` generated
by serde from the attributes in `config.rs` — camelCase keys, `None`
fields omitted. -/
def serializeRegistryConfig (rc : RegistryConfig) : Toml :=
  Toml.table
    ([("registry", Toml.str rc.registry)] ++
      optField "protocol" (rc.protocol.map Toml.str) ++
      optField "registrySubpath" (rc.registry_subpath.map Toml.str) ++
      optField "auth" (rc.auth.map serializeAuth))

/-- Reads an optional string field: missing means `None`, a present value
must be a string. -/
def getOptStr (fields : List (String × Toml)) (key : String) :
    Except String (Option String) :=
  match fields.lookup key with
  | none => Except.ok none
  | some (Toml.str s) => Except.ok (some s)
  | some _ => Except.error ("invalid type for key " ++ key)

/-- Modelled from the spec: the deserializer for `RegistryConfig` generated
by serde — `registry` mandatory, the three `Option` fields defaulting to
`None` when missing. -/
def deserializeRegistryConfig (v : Toml) : Except String RegistryConfig :=
  match v with
  | Toml.table fields => do
    let registry ←
      match fields.lookup "registry" with
      | some (Toml.str s) => Except.ok s
      | _ => Except.error "missing field registry"
    let protocol ← getOptStr fields "protocol"
    let registry_subpath ← getOptStr fields "registrySubpath"
    let auth ←
      match fields.lookup "auth" with
      | none => Except.ok none
      | some t => (deserializeAuth t).map some
    Except.ok ⟨registry, protocol, registry_subpath, auth⟩
  | _ => Except.error "invalid registry config"

/-- Modelled from the spec: the serializer for `Config` generated by serde
from the attributes in `config.rs`; the `namespaces` map serializes as a
table of per-namespace `RegistryConfig` tables. -/
def serializeConfig (c : Config) : Toml :=
  Toml.table
    [("defaultNamespace", Toml.str c.default_namespace),
     ("defaultConfig", serializeRegistryConfig c.default_config),
     ("namespaces",
       Toml.table (c.namespaces.map fun kv => (kv.1, serializeRegistryConfig kv.2)))]

/-- The `defaultNamespace` field: `#[serde(default)]` at field level falls
back to the field type's default, `String::default()`, i.e. the empty
string, when the key is missing. -/
def readDefaultNamespace (fields : List (String × Toml)) : Except String String :=
  match fields.lookup "defaultNamespace" with
  | none => Except.ok ""
  | some (Toml.str s) => Except.ok s
  | some _ => Except.error "invalid type for defaultNamespace"

/-- The `defaultConfig` field: `#[serde(default)]` falls back to
`RegistryConfig::default()` when the key is missing. -/
def readDefaultConfig (fields : List (String × Toml)) : Except String RegistryConfig :=
  match fields.lookup "defaultConfig" with
  | none => Except.ok RegistryConfig.default
  | some t => deserializeRegistryConfig t

/-- Deserializes the entries of the `namespaces` table in order. -/
def deserializeNamespaces :
    List (String × Toml) → Except String (List (String × RegistryConfig))
  | [] => Except.ok []
  | (k, v) :: rest => do
    let rc ← deserializeRegistryConfig v
    let tail ← deserializeNamespaces rest
    Except.ok ((k, rc) :: tail)

/-- The `namespaces` field: `#[serde(default)]` falls back to the empty map
when the key is missing. -/
def readNamespaces (fields : List (String × Toml)) :
    Except String (List (String × RegistryConfig)) :=
  match fields.lookup "namespaces" with
  | none => Except.ok []
  | some (Toml.table entries) => deserializeNamespaces entries
  | some _ => Except.error "invalid type for namespaces"

/-- Modelled from the spec: the deserializer for `Config` generated by
serde from the attributes in `config.rs` — every field carries
`#[serde(default)]`. -/
def deserializeConfig (v : Toml) : Except String Config :=
  match v with
  | Toml.table fields => do
    let default_namespace ← readDefaultNamespace fields
    let default_config ← readDefaultConfig fields
    let namespaces ← readNamespaces fields
    Except.ok ⟨default_namespace, default_config, namespaces⟩
  | _ => Except.error "invalid config"

/-- `DependencyConfig` from `manifest.rs`. -/
structure DependencyConfig where
  version : String
  registry : Option String
  protocol : Option String
  registry_subpath : Option String
  package_name : Option String
deriving DecidableEq, Repr

/-- `ManifestEntry` from `manifest.rs`: a serde `untagged` union of a bare
version string and a structured entry. -/
inductive ManifestEntry where
  | Version : String → ManifestEntry
  | Config : DependencyConfig → ManifestEntry
deriving DecidableEq, Repr

/-- Modelled from the spec: the deserializer for `DependencyConfig`
generated by serde — `version` mandatory, the four `Option` fields
defaulting to `None` when missing. -/
def deserializeDependencyConfig (v : Toml) : Except String DependencyConfig :=
  match v with
  | Toml.table fields => do
    let version ←
      match fields.lookup "version" with
      | some (Toml.str s) => Except.ok s
      | _ => Except.error "missing field version"
    let registry ← getOptStr fields "registry"
    let protocol ← getOptStr fields "protocol"
    let registry_subpath ← getOptStr fields "registrySubpath"
    let package_name ← getOptStr fields "packageName"
    Except.ok ⟨version, registry, protocol, registry_subpath, package_name⟩
  | _ => Except.error "invalid dependency config"

/-- Modelled from the spec: the serde `untagged` deserializer for
`ManifestEntry` tries the `Version(String)` variant first (a bare string),
then the structured `Config(DependencyConfig)` variant. -/
def deserializeManifestEntry (v : Toml) : Except String ManifestEntry :=
  match v with
  | Toml.str s => Except.ok (ManifestEntry.Version s)
  | _ => (deserializeDependencyConfig v).map ManifestEntry.Config

/-- Modelled from the spec: no code in the repository consumes a
`ManifestEntry`; §3 of the spec defines the *effective* entry of the
bare-string form as the structured form with only `version` set and every
override absent. -/
def normalizeEntry : ManifestEntry → DependencyConfig
  | ManifestEntry.Version v => ⟨v, none, none, none, none⟩
  | ManifestEntry.Config c => c

end WasmPkg

namespace WasmPkg

/-- C1: `get_client` selects plaintext HTTP exactly for `Some("http")` and
encrypted HTTPS for every other protocol value, the same transport as for
`Some("https")`. -/
theorem get_client_protocol_selection (c : RegistryConfig) :
    (c.get_client.1 = ClientProtocol.Http ↔ c.protocol = some "http") ∧
    c.get_client.1 = (if c.protocol = some "http"
      then ClientProtocol.Http else ClientProtocol.Https) ∧
    ({ c with protocol := some "https" } : RegistryConfig).get_client.1 =
      ClientProtocol.Https := by
  refine ⟨?_, ?_, rfl⟩ <;>
    rcases hp : c.protocol with _ | p <;>
      simp [RegistryConfig.get_client, hp] <;> split <;> simp_all

/-- C2: `resolve` returns the `RegistryConfig` stored under the namespace
when the namespace is a key of `namespaces`, and `default_config`
otherwise. -/
theorem resolve_lookup_else_default (c : Config) (n : String) :
    (∀ rc, c.namespaces.lookup n = some rc → c.resolve n = rc) ∧
    (c.namespaces.lookup n = none → c.resolve n = c.default_config) := by
  constructor
  · intro rc h
    simp [Config.resolve, h]
  · intro h
    simp [Config.resolve, h]

/-- Witness for C2 at a concrete config: a present namespace resolves to
its stored entry, an absent one to the default. -/
theorem resolve_lookup_else_default_witness :
    Config.resolve
        ⟨"wasi", RegistryConfig.default,
          [("example", ⟨"example.com", some "http", none, none⟩)]⟩
        "example" = ⟨"example.com", some "http", none, none⟩ ∧
    Config.resolve
        ⟨"wasi", RegistryConfig.default,
          [("example", ⟨"example.com", some "http", none, none⟩)]⟩
        "absent" = RegistryConfig.default :=
  ⟨(resolve_lookup_else_default _ "example").1 _ (by decide),
   (resolve_lookup_else_default _ "absent").2 (by decide)⟩

/-- C3: when the registry pull succeeds but the artifact has zero layers,
`handle_pull` fails with the "No layers found" error and performs no file
write. -/
theorem pull_no_layers_fails_writes_nothing (args : PullArgs) (d : ImageData)
    (ra : RegistryAuth) (hauth : tryFromAuth args.auth = Except.ok ra)
    (hl : d.layers = []) :
    handle_pull args (Except.ok d) = (Except.error "No layers found", []) := by
  simp [handle_pull, hauth, hl]

/-- Witness for C3: pulling an artifact with zero layers under anonymous
auth errors and writes nothing. -/
theorem pull_no_layers_fails_writes_nothing_witness :
    tryFromAuth ⟨none, none⟩ = Except.ok RegistryAuth.Anonymous ∧
    handle_pull ⟨⟨none, none⟩, "my/repo", none⟩ (Except.ok ⟨[]⟩) =
      (Except.error "No layers found", []) :=
  ⟨rfl, pull_no_layers_fails_writes_nothing _ _ RegistryAuth.Anonymous rfl rfl⟩

/-- C4: a successful pull writes the first layer's bytes to the `-o` path
when given, and otherwise to the repository path with every `/` replaced
by `_` and `.wasm` appended. -/
theorem pull_output_path (args : PullArgs) (d : ImageData) (l : Layer)
    (rest : List Layer) (ra : RegistryAuth)
    (hauth : tryFromAuth args.auth = Except.ok ra)
    (hl : d.layers = l :: rest) :
    (args.output = none →
      handle_pull args (Except.ok d) =
        (Except.ok (),
          [Effect.fsWrite (replaceSlashes args.repository ++ ".wasm") l.data])) ∧
    (∀ p, args.output = some p →
      handle_pull args (Except.ok d) =
        (Except.ok (), [Effect.fsWrite p l.data])) := by
  constructor
  · intro ho
    simp [handle_pull, hauth, hl, ho]
  · intro p ho
    simp [handle_pull, hauth, hl, ho]

/-- Witness for C4: pulling `my/repo:1.0.0` with one layer writes
`my_repo.wasm` by default, and exactly the `-o` path when one is given. -/
theorem pull_output_path_witness :
    handle_pull ⟨⟨none, none⟩, "my/repo", none⟩ (Except.ok ⟨[⟨[1, 2]⟩]⟩) =
      (Except.ok (), [Effect.fsWrite "my_repo.wasm" [1, 2]]) ∧
    handle_pull ⟨⟨none, none⟩, "my/repo", some "out.wasm"⟩
        (Except.ok ⟨[⟨[1, 2]⟩]⟩) =
      (Except.ok (), [Effect.fsWrite "out.wasm" [1, 2]]) := by
  constructor
  · have h :=
      (pull_output_path ⟨⟨none, none⟩, "my/repo", none⟩ ⟨[⟨[1, 2]⟩]⟩ ⟨[1, 2]⟩
        [] RegistryAuth.Anonymous rfl rfl).1 rfl
    rw [h]
    rfl
  · exact (pull_output_path ⟨⟨none, none⟩, "my/repo", some "out.wasm"⟩
      ⟨[⟨[1, 2]⟩]⟩ ⟨[1, 2]⟩ [] RegistryAuth.Anonymous rfl rfl).2 "out.wasm" rfl

/-- C5: the CLI auth pair converts to `Basic(username, password)` when both
parts are present, to `Anonymous` when both are absent, and errors when
exactly one is present — in which case `handle_pull` fails identically for
every possible registry answer and performs no write. -/
theorem auth_conversion (a : CliAuth) :
    (∀ u p, a.username = some u → a.password = some p →
      tryFromAuth a = Except.ok (RegistryAuth.Basic u p)) ∧
    (a.username = none → a.password = none →
      tryFromAuth a = Except.ok RegistryAuth.Anonymous) ∧
    (a.username.isSome ≠ a.password.isSome →
      tryFromAuth a = Except.error "Must provide both a username and password" ∧
      ∀ (repo : String) (out : Option String)
        (pullResult : Except String ImageData),
        handle_pull ⟨a, repo, out⟩ pullResult =
          (Except.error "Must provide both a username and password", [])) := by
  obtain ⟨u, p⟩ := a
  refine ⟨?_, ?_, ?_⟩
  · rintro u' p' rfl rfl
    rfl
  · rintro rfl rfl
    rfl
  · intro hne
    rcases u with _ | u <;> rcases p with _ | p <;> simp_all [tryFromAuth] <;>
      intro repo out pullResult <;> rfl

/-- Witness for C5: both present yields `Basic`, both absent yields
`Anonymous`, and `-u alice` alone fails before any registry answer is
consulted. -/
theorem auth_conversion_witness :
    tryFromAuth ⟨some "alice", some "pw"⟩ =
      Except.ok (RegistryAuth.Basic "alice" "pw") ∧
    tryFromAuth ⟨none, none⟩ = Except.ok RegistryAuth.Anonymous ∧
    handle_pull ⟨⟨some "alice", none⟩, "my/repo", none⟩
        (Except.ok ⟨[⟨[0]⟩]⟩) =
      (Except.error "Must provide both a username and password", []) :=
  ⟨(auth_conversion ⟨some "alice", some "pw"⟩).1 "alice" "pw" rfl rfl,
   (auth_conversion ⟨none, none⟩).2.1 rfl rfl,
   ((auth_conversion ⟨some "alice", none⟩).2.2 (by decide)).2 "my/repo" none
     (Except.ok ⟨[⟨[0]⟩]⟩)⟩

/-- C6: `handle_deps_update` succeeds for every combination of arguments
and performs no file or network effect. -/
theorem deps_update_noop (a : DepsUpdateArgs) :
    handle_deps_update a = (Except.ok (), []) := rfl

/-- C10: `RegistryConfig::default()` is exactly
`{ registry = "ghcr.io", registry_subpath = Some("WebAssembly"),
protocol = None, auth = None }`, and its client is the anonymous HTTPS
endpoint. -/
theorem registry_config_default_value :
    RegistryConfig.default =
      { registry := "ghcr.io"
        protocol := none
        registry_subpath := some "WebAssembly"
        auth := none } ∧
    RegistryConfig.default.get_client =
      (ClientProtocol.Https, RegistryAuth.Anonymous) := by
  constructor <;> rfl

/-- Serializing then deserializing an `Auth` pair restores it. -/
theorem deserializeAuth_serializeAuth (a : ConfigAuth) :
    deserializeAuth (serializeAuth a) = Except.ok a := rfl

/-- Serializing then deserializing a `RegistryConfig` restores it. -/
theorem deserializeRegistryConfig_serialize (rc : RegistryConfig) :
    deserializeRegistryConfig (serializeRegistryConfig rc) = Except.ok rc := by
  obtain ⟨r, pr, sp, au⟩ := rc
  rcases pr with _ | pr <;> rcases sp with _ | sp <;> rcases au with _ | ⟨u, pw⟩ <;> rfl

/-- Serializing then deserializing a namespaces table restores it. -/
theorem deserializeNamespaces_serialize (l : List (String × RegistryConfig)) :
    deserializeNamespaces (l.map fun kv => (kv.1, serializeRegistryConfig kv.2)) =
      Except.ok l := by
  induction l with
  | nil => rfl
  | cons kv rest ih =>
    simp [deserializeNamespaces, deserializeRegistryConfig_serialize, ih,
      Bind.bind, Except.bind]

/-- C7: serializing a `Config` to its file representation and deserializing
the result restores every observable field, for every `Config` (in
particular the default configuration and configurations with populated
namespace overrides and auth). -/
theorem config_roundtrip (c : Config) :
    deserializeConfig (serializeConfig c) = Except.ok c := by
  obtain ⟨dn, dc, nss⟩ := c
  simp [serializeConfig, deserializeConfig, readDefaultNamespace,
    readDefaultConfig, readNamespaces, List.lookup,
    deserializeRegistryConfig_serialize, deserializeNamespaces_serialize,
    Bind.bind, Except.bind]

/-- C8: a manifest entry supplied as a bare version string deserializes to
the `Version` variant, and normalizes to the same effective entry as the
structured form with only `version` set and all overrides absent. -/
theorem manifest_bare_version_equiv (v : String) :
    deserializeManifestEntry (Toml.str v) = Except.ok (ManifestEntry.Version v) ∧
    normalizeEntry (ManifestEntry.Version v) = ⟨v, none, none, none, none⟩ ∧
    normalizeEntry (ManifestEntry.Version v) =
      normalizeEntry (ManifestEntry.Config ⟨v, none, none, none, none⟩) :=
  ⟨rfl, rfl, rfl⟩

/-- Counterexample to C9: the empty table omits `defaultNamespace`, yet
deserializing it yields `default_namespace = ""`, not `"wasi"` — the
field-level `#[serde(default)]` uses `String::default()`, not
`Config::default()`. -/
theorem default_namespace_deser_counterexample :
    (([] : List (String × Toml)).lookup "defaultNamespace" = none) ∧
    deserializeConfig (Toml.table []) =
      Except.ok ⟨"", RegistryConfig.default, []⟩ ∧
    (⟨"", RegistryConfig.default, []⟩ : Config).default_namespace ≠ "wasi" :=
  ⟨rfl, rfl, by decide⟩

/-- C9 (amended): default value initialization sets `default_namespace` to
`"wasi"`, but a `Config` deserialized from a file representation omitting
`defaultNamespace` has `default_namespace = ""` (the `String` type's
default), not `"wasi"`. -/
theorem default_namespace_amended (fields : List (String × Toml)) (c : Config)
    (hmiss : fields.lookup "defaultNamespace" = none)
    (h : deserializeConfig (Toml.table fields) = Except.ok c) :
    Config.default.default_namespace = "wasi" ∧ c.default_namespace = "" := by
  refine ⟨rfl, ?_⟩
  have hdn : readDefaultNamespace fields = Except.ok "" := by
    simp [readDefaultNamespace, hmiss]
  simp only [deserializeConfig, hdn] at h
  cases hdc : readDefaultConfig fields with
  | error e => simp [hdc, Bind.bind, Except.bind] at h
  | ok dc =>
    cases hns : readNamespaces fields with
    | error e => simp [hdc, hns, Bind.bind, Except.bind] at h
    | ok nss =>
      simp [hdc, hns, Bind.bind, Except.bind] at h
      rw [← h]

/-- Witness for the amended C9 at the empty table. -/
theorem default_namespace_amended_witness :
    Config.default.default_namespace = "wasi" ∧
    (⟨"", RegistryConfig.default, []⟩ : Config).default_namespace = "" :=
  default_namespace_amended [] ⟨"", RegistryConfig.default, []⟩ rfl rfl

end WasmPkg
